import Mathlib

/-!
Verification of the voice-agent core: μ-law codec and resampling
(src/audio-transcoder.ts), booking tools and store (tools section of
src/audio-transcoder.ts, src/services/database.service.ts), the per-call
bridge state machine (src/openai-realtime.ts plus the Twilio stream
handler), and the reconnect policy of the Twilio stream handler.
-/

namespace VoiceAgent

/-! ## μ-law codec (src/audio-transcoder.ts)

`MULAW_DECODE_TABLE` and `MULAW_ENCODE_TABLE` are built once at start-up;
we embed them as functions of the index.  JS `~i & 0xff` for `0 ≤ i ≤ 255`
is `255 - i`. -/

/-- The 256-entry `expLut` array from `buildMulawEncodeTable`. -/
def expLut : List Nat :=
  [0, 0, 1, 1, 2, 2, 2, 2, 3, 3, 3, 3, 3, 3, 3, 3,
   4, 4, 4, 4, 4, 4, 4, 4, 4, 4, 4, 4, 4, 4, 4, 4,
   5, 5, 5, 5, 5, 5, 5, 5, 5, 5, 5, 5, 5, 5, 5, 5,
   5, 5, 5, 5, 5, 5, 5, 5, 5, 5, 5, 5, 5, 5, 5, 5,
   6, 6, 6, 6, 6, 6, 6, 6, 6, 6, 6, 6, 6, 6, 6, 6,
   6, 6, 6, 6, 6, 6, 6, 6, 6, 6, 6, 6, 6, 6, 6, 6,
   6, 6, 6, 6, 6, 6, 6, 6, 6, 6, 6, 6, 6, 6, 6, 6,
   6, 6, 6, 6, 6, 6, 6, 6, 6, 6, 6, 6, 6, 6, 6, 6,
   7, 7, 7, 7, 7, 7, 7, 7, 7, 7, 7, 7, 7, 7, 7, 7,
   7, 7, 7, 7, 7, 7, 7, 7, 7, 7, 7, 7, 7, 7, 7, 7,
   7, 7, 7, 7, 7, 7, 7, 7, 7, 7, 7, 7, 7, 7, 7, 7,
   7, 7, 7, 7, 7, 7, 7, 7, 7, 7, 7, 7, 7, 7, 7, 7,
   7, 7, 7, 7, 7, 7, 7, 7, 7, 7, 7, 7, 7, 7, 7, 7,
   7, 7, 7, 7, 7, 7, 7, 7, 7, 7, 7, 7, 7, 7, 7, 7,
   7, 7, 7, 7, 7, 7, 7, 7, 7, 7, 7, 7, 7, 7, 7, 7,
   7, 7, 7, 7, 7, 7, 7, 7, 7, 7, 7, 7, 7, 7, 7, 7]

/-- `MULAW_DECODE_TABLE[i]` from `buildMulawDecodeTable`: complement the
index, split sign / exponent / mantissa, rebuild the biased magnitude and
clamp the result into the 16-bit range. -/
def mulawDecode (i : Nat) : Int :=
  let mulaw := 255 - i % 256
  let sign := mulaw &&& 0x80
  let exponent := (mulaw >>> 4) &&& 0x07
  let mantissa := mulaw &&& 0x0f
  let mantissa := (mantissa <<< 4) + 0x84
  let mantissa := mantissa <<< exponent
  let sample : Int := if sign ≠ 0 then -((mantissa : Int) - 0x84) else (mantissa : Int) - 0x84
  max (-32768) (min 32767 sample)

/-- `MULAW_ENCODE_TABLE` entry for the signed sample `s` (the table is
indexed by `(s + 32768) & 0xffff`; see `pcm16ToPcmu`). -/
def mulawEncode (s : Int) : Nat :=
  let sign : Nat := if s < 0 then 0x80 else 0
  let mag : Int := if s < 0 then -s else s
  let mag : Int := if mag > 32635 then 32635 else mag
  let sample : Nat := (mag + 0x84).toNat
  let exponent := expLut.getD ((sample >>> 7) &&& 0xff) 0
  let mantissa := (sample >>> (exponent + 3)) &&& 0x0f
  255 - (sign ||| (exponent <<< 4) ||| mantissa)

/-- Int16Array storage semantics: values are reduced modulo 2^16 into
`[-32768, 32767]`. -/
def toInt16 (v : Int) : Int := (v + 32768) % 65536 - 32768

/-- `pcmuToPcm16`: decode each μ-law byte through the lookup table. -/
def pcmuToPcm16 (pcmuBuffer : List Nat) : List Int :=
  pcmuBuffer.map mulawDecode

/-- `pcm16ToPcmu`: look each sample up at index `(s + 32768) & 0xffff` of
the encode table, i.e. encode `toInt16 s`. -/
def pcm16ToPcmu (pcm16 : List Int) : List Nat :=
  pcm16.map (fun s => mulawEncode (toInt16 s))

/-! ## Resampling (src/audio-transcoder.ts)

`resample8to24` interpolates two extra samples between consecutive input
samples and repeats the last sample three times; `resample24to8` keeps
every third sample.  Results are stored into an `Int16Array`, hence the
`toInt16` wraps.  `Math.round(v) = ⌊v + 1/2⌋`, so
`Math.round(x / 3) = ⌊(2x + 3) / 6⌋`. -/

/-- JS `Math.round(x / 3)` for an integer `x`. -/
def roundDiv3 (x : Int) : Int := Int.fdiv (2 * x + 3) 6

/-- `resample8to24`: for each `i < N-1` emit
`(sᵢ, round((2sᵢ+sᵢ₊₁)/3), round((sᵢ+2sᵢ₊₁)/3))`; the last sample is
emitted three times.  Empty input yields empty output. -/
def resample8to24 : List Int → List Int
  | [] => []
  | [s] => [toInt16 s, toInt16 s, toInt16 s]
  | s0 :: s1 :: rest =>
      toInt16 s0 :: toInt16 (roundDiv3 (2 * s0 + s1)) :: toInt16 (roundDiv3 (s0 + 2 * s1)) ::
        resample8to24 (s1 :: rest)

/-- `resample24to8`: output length `⌊N/3⌋`, `output[i] = input[3i]`. -/
def resample24to8 (input24k : List Int) : List Int :=
  (List.range (input24k.length / 3)).map (fun i => input24k.getD (3 * i) 0)

theorem resample8to24_length (l : List Int) :
    (resample8to24 l).length = 3 * l.length := by
  induction l with
  | nil => rfl
  | cons s0 tail ih =>
    cases tail with
    | nil => rfl
    | cons s1 rest =>
      simp only [resample8to24, List.length_cons] at ih ⊢
      omega

theorem resample24to8_length (l : List Int) :
    (resample24to8 l).length = l.length / 3 := by
  simp [resample24to8]

theorem toInt16_eq_self {s : Int} (h1 : -32768 ≤ s) (h2 : s ≤ 32767) :
    toInt16 s = s := by
  unfold toInt16
  omega

theorem resample8to24_getD_triple (l : List Int) (i : Nat) (hi : i < l.length) :
    (resample8to24 l).getD (3 * i) 0 = toInt16 (l.getD i 0) := by
  induction l generalizing i with
  | nil => simp at hi
  | cons s0 tail ih =>
    cases tail with
    | nil =>
      have : i = 0 := by simpa using Nat.lt_one_iff.mp (by simpa using hi)
      subst this
      rfl
    | cons s1 rest =>
      cases i with
      | zero => rfl
      | succ j =>
        have hj : j < (s1 :: rest).length := by
          simpa using Nat.lt_of_succ_lt_succ hi
        have : 3 * (j + 1) = 3 * j + 3 := by ring
        simp only [resample8to24, this, List.getD_cons_succ]
        exact ih j hj

/-- Downsampling after upsampling restores the input, for samples in the
Int16 range (as every `Int16Array` element is). -/
theorem resample_roundTrip (x : List Int)
    (hx : ∀ s ∈ x, -32768 ≤ s ∧ s ≤ 32767) :
    resample24to8 (resample8to24 x) = x := by
  have hlen : (resample8to24 x).length / 3 = x.length := by
    rw [resample8to24_length]
    omega
  unfold resample24to8
  rw [hlen]
  apply List.ext_getElem
  · simp
  · intro i h1 h2
    have hi : i < x.length := h2
    simp only [List.getElem_map, List.getElem_range]
    rw [resample8to24_getD_triple x i hi]
    rw [List.getD_eq_getElem x 0 hi]
    exact toInt16_eq_self (hx _ (List.getElem_mem hi)).1 (hx _ (List.getElem_mem hi)).2

/-! ## Base64 and the full pipeline helpers (src/audio-transcoder.ts)

`twilioToOpenAI` and `openaiToTwilio` wrap the codec and resampler with
Node `Buffer` base64 conversion.  Node base64 decoding ignores characters
outside the alphabet (including padding) and drops a trailing lone
sextet; fractional `Int16Array` lengths truncate. -/

def base64Alphabet : List Char :=
  "ABCDEFGHIJKLMNOPQRSTUVWXYZabcdefghijklmnopqrstuvwxyz0123456789+/".toList

/-- The 6-bit value of a base64 character, `none` for characters outside
the alphabet. -/
def sextetOf (c : Char) : Option Nat :=
  base64Alphabet.findIdx? (fun a => a = c)

/-- Reassemble bytes from a run of 6-bit values: full groups of four give
three bytes, a trailing pair gives one byte, a trailing triple two bytes,
a trailing single is dropped. -/
def sextetsToBytes : List Nat → List Nat
  | a :: b :: c :: d :: rest =>
      (((a <<< 2) ||| (b >>> 4)) &&& 255) ::
        ((((b &&& 15) <<< 4) ||| (c >>> 2)) &&& 255) ::
        ((((c &&& 3) <<< 6) ||| d) &&& 255) :: sextetsToBytes rest
  | [a, b, c] =>
      [((a <<< 2) ||| (b >>> 4)) &&& 255, (((b &&& 15) <<< 4) ||| (c >>> 2)) &&& 255]
  | [a, b] => [((a <<< 2) ||| (b >>> 4)) &&& 255]
  | _ => []

/-- `Buffer.from(s, "base64")` as a byte list. -/
def base64DecodeBytes (s : String) : List Nat :=
  sextetsToBytes (s.toList.filterMap sextetOf)

def base64CharAt (n : Nat) : Char := base64Alphabet.getD n 'A'

/-- Standard base64 encoding of a byte run, with `=` padding. -/
def bytesToBase64Chars : List Nat → List Char
  | x :: y :: z :: rest =>
      base64CharAt (x >>> 2) :: base64CharAt (((x &&& 3) <<< 4) ||| (y >>> 4)) ::
        base64CharAt (((y &&& 15) <<< 2) ||| (z >>> 6)) :: base64CharAt (z &&& 63) ::
        bytesToBase64Chars rest
  | [x, y] =>
      [base64CharAt (x >>> 2), base64CharAt (((x &&& 3) <<< 4) ||| (y >>> 4)),
       base64CharAt ((y &&& 15) <<< 2), '=']
  | [x] =>
      [base64CharAt (x >>> 2), base64CharAt ((x &&& 3) <<< 4), '=', '=']
  | [] => []

/-- `buffer.toString("base64")`. -/
def base64Encode (bytes : List Nat) : String :=
  String.mk (bytesToBase64Chars bytes)

/-- An `Int16Array` viewed as little-endian bytes (`Buffer.from(...)` on
the typed array's storage). -/
def int16leBytes (l : List Int) : List Nat :=
  l.flatMap (fun v =>
    let u := ((toInt16 v) % 65536).toNat
    [u % 256, u / 256])

/-- `buffer.readInt16LE(2 i)` for `i < ⌊len/2⌋`, as in `openaiToTwilio`
(the `Int16Array(buffer.length / 2)` length truncates). -/
def readInt16LEList (bytes : List Nat) : List Int :=
  (List.range (bytes.length / 2)).map (fun i =>
    let u := bytes.getD (2 * i) 0 + 256 * bytes.getD (2 * i + 1) 0
    if u ≥ 32768 then (u : Int) - 65536 else (u : Int))

/-- `twilioToOpenAI`: base64 PCMU (8 kHz) → base64 PCM16 (24 kHz). -/
def twilioToOpenAI (pcmuBase64 : String) : String :=
  base64Encode (int16leBytes (resample8to24 (pcmuToPcm16 (base64DecodeBytes pcmuBase64))))

/-- `openaiToTwilio`: base64 PCM16 (24 kHz) → base64 PCMU (8 kHz). -/
def openaiToTwilio (pcm16Base64 : String) : String :=
  base64Encode (pcm16ToPcmu (resample24to8 (readInt16LEList (base64DecodeBytes pcm16Base64))))

/-! ## Booking store (src/services/database.service.ts)

The `appointments` table created by `initializeDatabase` declares
`UNIQUE` on `confirmation_number` only; `idx_appointment_datetime` is a
plain (non-unique) index, so the schema puts no constraint on
`(appointment_date, appointment_time)`.  We model the table as a row
list and an insert that fails exactly when a schema constraint — the
`confirmation_number` uniqueness — is violated. -/

structure AppointmentRow where
  customerName : String
  phoneNumber : String
  date : String
  time : String
  confirmationNumber : String
  callSid : String
  status : String
  deriving Repr, DecidableEq

/-- `insertAppointment`: the insert is rejected by SQLite exactly when it
violates a declared constraint; the only uniqueness in the schema is on
`confirmation_number`.  `status` defaults to `"confirmed"` (set by the
row construction sites below). -/
def insertAppointment (db : List AppointmentRow) (row : AppointmentRow) :
    Except String (List AppointmentRow) :=
  if db.any (fun r => r.confirmationNumber = row.confirmationNumber) then
    Except.error "UNIQUE constraint failed: appointments.confirmation_number"
  else
    Except.ok (db ++ [row])

/-- `getBookedSlots`: `appointment_time` of confirmed rows on a date. -/
def getBookedSlots (db : List AppointmentRow) (date : String) : List String :=
  (db.filter (fun r => r.date = date && r.status = "confirmed")).map (fun r => r.time)

/-- `isSlotBooked`: some confirmed row has this date and time. -/
def isSlotBooked (db : List AppointmentRow) (date time : String) : Bool :=
  db.any (fun r => r.date = date && r.time = time && r.status = "confirmed")

/-! ## Tools (tools section of src/audio-transcoder.ts) -/

/-- `formatTime`: `"H:MM AM/PM"`, no leading zero on the hour, two-digit
minute (`padStart(2, "0")`), uppercase meridian. -/
def formatTime (hour minute : Nat) : String :=
  let period := if hour ≥ 12 then "PM" else "AM"
  let displayHour := if hour > 12 then hour - 12 else if hour = 0 then 12 else hour
  let minuteStr := if minute < 10 then "0" ++ toString minute else toString minute
  toString displayHour ++ ":" ++ minuteStr ++ " " ++ period

/-- `generateAllSlots`: hours 9–16 with hour 12 skipped (lunch break),
a `:00` and a `:30` slot per hour. -/
def generateAllSlots : List String :=
  (((List.range 17).drop 9).filter (fun h => h ≠ 12)).flatMap
    (fun hour => [formatTime hour 0, formatTime hour 30])

/-- Split a character run at `-` separators. -/
def splitDash : List Char → List (List Char)
  | [] => [[]]
  | c :: rest =>
    let groups := splitDash rest
    if c = '-' then [] :: groups
    else
      match groups with
      | [] => [[c]]
      | g :: gs => (c :: g) :: gs

/-- A non-empty all-digit run as a number, `none` otherwise. -/
def digitsToNat : List Char → Option Nat
  | [] => none
  | cs =>
    cs.foldl
      (fun acc c =>
        match acc with
        | none => none
        | some n => if c.isDigit then some (n * 10 + (c.toNat - 48)) else none)
      (some 0)

/-- Model of `new Date(date + "T12:00:00")` for an ISO `YYYY-MM-DD`
string under a UTC host clock: the parsed calendar day, `none` when the
string is not a valid ISO date ("Invalid Date"). -/
def parseDate (s : String) : Option (Nat × Nat × Nat) :=
  match splitDash s.toList with
  | [ys, ms, ds] =>
    match digitsToNat ys, digitsToNat ms, digitsToNat ds with
    | some y, some m, some d =>
      if 1 ≤ m ∧ m ≤ 12 ∧ 1 ≤ d ∧ d ≤ 31 then some (y, m, d) else none
    | _, _, _ => none
  | _ => none

/-- Day of the week of a Gregorian date, 0 = Sunday (the value of
`getUTCDay()`), by Sakamoto's method. -/
def dayOfWeek (y m d : Nat) : Nat :=
  let t := [0, 3, 2, 5, 0, 3, 5, 1, 4, 6, 2, 4]
  let y := if m < 3 then y - 1 else y
  (y + y / 4 - y / 100 + y / 400 + t.getD (m - 1) 0 + d) % 7

/-- `listAvailableSlots`: weekend dates (UTC day 0 or 6) yield the empty
list; otherwise the generated slots minus the booked ones, in generation
order.  An unparseable date has `getUTCDay() = NaN`, which compares
unequal to 0 and 6, so the weekday branch runs. -/
def listAvailableSlots (db : List AppointmentRow) (date : String) : List String :=
  let day := (parseDate date).map (fun p => dayOfWeek p.1 p.2.1 p.2.2)
  if day = some 0 ∨ day = some 6 then []
  else generateAllSlots.filter (fun s => !(getBookedSlots db date).contains s)

structure CreateResult where
  success : Bool
  confirmation_number : Option String
  error : Option String
  deriving Repr, DecidableEq

/-- `createAppointment`: pre-check `isSlotBooked`, then insert inside a
try/catch; a throwing insert is mapped to the database-error result, so
the function always returns.  The `APT-…` confirmation number generated
from `Math.random()` is a parameter. -/
def createAppointment (db : List AppointmentRow)
    (customerName date time callSid phoneNumber confirmationNumber : String) :
    CreateResult × List AppointmentRow :=
  if isSlotBooked db date time then
    ({ success := false, confirmation_number := none,
       error := some "That time slot was just booked by someone else. Please choose another time." }, db)
  else
    match insertAppointment db
        { customerName := customerName, phoneNumber := phoneNumber, date := date,
          time := time, confirmationNumber := confirmationNumber, callSid := callSid,
          status := "confirmed" } with
    | Except.ok db2 =>
        ({ success := true, confirmation_number := some confirmationNumber, error := none }, db2)
    | Except.error _ =>
        ({ success := false, confirmation_number := none,
           error := some "Database error — please try again." }, db)

/-- One booking request: the arguments of a `create_appointment` call
together with the confirmation number its run draws. -/
structure BookingRequest where
  customerName : String
  date : String
  time : String
  callSid : String
  phoneNumber : String
  confirmationNumber : String
  deriving Repr, DecidableEq

def runCreate (db : List AppointmentRow) (r : BookingRequest) :
    CreateResult × List AppointmentRow :=
  createAppointment db r.customerName r.date r.time r.callSid r.phoneNumber r.confirmationNumber

/-- Sequential (non-overlapping) `create_appointment` calls. -/
def runSequential (db : List AppointmentRow) (reqs : List BookingRequest) :
    List AppointmentRow :=
  reqs.foldl (fun db r => (runCreate db r).2) db

/-- Two concurrent `create_appointment` calls in the interleaving where
both availability pre-checks read the database before either insert runs
— possible because the `SELECT` of `isSlotBooked` and the `INSERT` are
separate statements with no enclosing transaction.  The inserts
themselves are serialized by SQLite, in order. -/
def runRacedPair (db : List AppointmentRow) (a b : BookingRequest) :
    CreateResult × CreateResult × List AppointmentRow :=
  let checkA := isSlotBooked db a.date a.time
  let checkB := isSlotBooked db b.date b.time
  let rowOf := fun (r : BookingRequest) =>
    { customerName := r.customerName, phoneNumber := r.phoneNumber, date := r.date,
      time := r.time, confirmationNumber := r.confirmationNumber, callSid := r.callSid,
      status := "confirmed" : AppointmentRow }
  let stepInsert := fun (check : Bool) (db : List AppointmentRow) (r : BookingRequest) =>
    if check then
      (({ success := false, confirmation_number := none,
          error := some "That time slot was just booked by someone else. Please choose another time." }
            : CreateResult), db)
    else
      match insertAppointment db (rowOf r) with
      | Except.ok db2 =>
          (({ success := true, confirmation_number := some r.confirmationNumber,
              error := none } : CreateResult), db2)
      | Except.error _ =>
          (({ success := false, confirmation_number := none,
              error := some "Database error — please try again." } : CreateResult), db)
  let resA := stepInsert checkA db a
  let resB := stepInsert checkB resA.2 b
  (resA.1, resB.1, resB.2)

/-- Number of confirmed rows on a (date, time) pair. -/
def countConfirmed (db : List AppointmentRow) (date time : String) : Nat :=
  (db.filter (fun r => r.date = date && r.time = time && r.status = "confirmed")).length

/-! ## Tool dispatcher (`executeToolCall` in src/audio-transcoder.ts)

The dispatcher runs the selected tool and the session-cache writes inside
one try/catch and maps any throw to a fixed error object.  Arguments
arrive as an already-parsed object (`JSON.parse` failures in the caller
produce `{}`, i.e. every field `undefined`); passing an `undefined`
binding to a prepared SQLite statement throws.  The session-cache calls
(`updateCallStatus`, `trackMetric`, `saveTranscript`) are modelled by one
oracle that either completes or throws.  Database effects are tracked by
the booking-store model above, not repeated here. -/

inductive Json where
  | null
  | bool (b : Bool)
  | num (n : Int)
  | str (s : String)
  | arr (elems : List Json)
  | obj (fields : List (String × Json))
  deriving Repr

/-- The parsed `args` object; `none` models an absent (`undefined`)
property. -/
structure ToolArgs where
  customer_name : Option String
  date : Option String
  time : Option String
  deriving Repr, DecidableEq

/-- `JSON.parse` failure in the caller yields `{}`. -/
def emptyToolArgs : ToolArgs := ⟨none, none, none⟩

def jsonOfCreateResult (r : CreateResult) : Json :=
  Json.obj
    ([("success", Json.bool r.success)] ++
      (match r.confirmation_number with
       | some c => [("confirmation_number", Json.str c)]
       | none => []) ++
      (match r.error with
       | some e => [("error", Json.str e)]
       | none => []))

/-- The body of `executeToolCall`'s try block: dispatch on the function
name, run the tool, then the session-cache writes; `Except.error` is a
thrown exception. -/
def runToolCall (name : String) (args : ToolArgs) (db : List AppointmentRow)
    (callSid phoneNumber confirmationNumber : String)
    (cache : Except String Unit) : Except String Json :=
  match name with
  | "list_available_slots" =>
    match args.date with
    | none => Except.error "TypeError: Too few parameter values were provided"
    | some d =>
      let result := Json.obj [("available_slots", Json.arr ((listAvailableSlots db d).map Json.str))]
      match cache with
      | Except.ok _ => Except.ok result
      | Except.error e => Except.error e
  | "create_appointment" =>
    match args.date, args.time with
    | some d, some t =>
      let run :=
        match args.customer_name with
        | some nm => createAppointment db nm d t callSid phoneNumber confirmationNumber
        | none =>
          -- the INSERT violates NOT NULL on customer_name; the catch inside
          -- createAppointment maps the throw to the database-error result
          if isSlotBooked db d t then
            ({ success := false, confirmation_number := none,
               error := some "That time slot was just booked by someone else. Please choose another time." }, db)
          else
            ({ success := false, confirmation_number := none,
               error := some "Database error — please try again." }, db)
      match cache with
      | Except.ok _ => Except.ok (jsonOfCreateResult run.1)
      | Except.error e => Except.error e
    | _, _ => Except.error "TypeError: Too few parameter values were provided"
  | _ => Except.error ("Unknown function: " ++ name)

/-- The fixed object returned from `executeToolCall`'s catch branch. -/
def toolTroubleJson : Json :=
  Json.obj [("error", Json.bool true),
            ("message", Json.str "I\x27m having trouble with our system right now. Let me try again.")]

/-- `executeToolCall`: the try body with every throw mapped to
`toolTroubleJson`; the dispatcher itself never throws. -/
def executeToolCall (name : String) (args : ToolArgs) (db : List AppointmentRow)
    (callSid phoneNumber confirmationNumber : String)
    (cache : Except String Unit) : Json :=
  match runToolCall name args db callSid phoneNumber confirmationNumber cache with
  | Except.ok j => j
  | Except.error _ => toolTroubleJson

/-! ## Per-call bridge state machine
(src/openai-realtime.ts `handleEvent` / `cancelResponse`, with the
Twilio stream handler's callbacks inlined)

`handleEvent` mutates `state` before invoking the registered callback;
the `onSpeechStarted` callback clears the Twilio audio buffer and then
calls `cancelResponse` on the same client.  `aiAudioStartMs` is
initialized to 0 and never written anywhere else in the source. -/

inductive ConversationState where
  | idle
  | userSpeaking
  | aiSpeaking
  | processingTool
  deriving Repr, DecidableEq

inductive LLMOut where
  | responseCancel
  | itemTruncate (itemId : String) (contentIndex : Nat) (audioEndMs : Nat)
  | functionCallOutput (callId output : String)
  | responseCreate
  deriving Repr, DecidableEq

inductive TwilioOut where
  | media (payload : String)
  | clear
  deriving Repr, DecidableEq

structure BridgeState where
  state : ConversationState
  currentResponseItemId : Option String
  aiAudioStartMs : Nat
  sentToOpenAI : List LLMOut
  sentToTwilio : List TwilioOut
  deriving Repr, DecidableEq

def initialBridgeState : BridgeState :=
  { state := ConversationState.idle, currentResponseItemId := none, aiAudioStartMs := 0,
    sentToOpenAI := [], sentToTwilio := [] }

/-- `cancelResponse`: only acts when the state is still `aiSpeaking`;
sends `response.cancel`, then `conversation.item.truncate` with the
current item id, content index 0 and `audio_end_ms = aiAudioStartMs`. -/
def cancelResponse (s : BridgeState) : BridgeState :=
  if s.state = ConversationState.aiSpeaking then
    let s := { s with sentToOpenAI := s.sentToOpenAI ++ [LLMOut.responseCancel] }
    let s :=
      match s.currentResponseItemId with
      | some itemId =>
          { s with sentToOpenAI :=
              s.sentToOpenAI ++ [LLMOut.itemTruncate itemId 0 s.aiAudioStartMs] }
      | none => s
    { s with state := ConversationState.idle }
  else s

/-- The OpenAI server events that touch the modelled state; `other`
stands for every remaining event type (logged only). -/
inductive OpenAIEvent where
  | speechStarted (audioStartMs : Nat) (itemId : String)
  | speechStopped (audioEndMs : Nat) (itemId : String)
  | audioDelta (itemId : String) (delta : String)
  | audioDone (itemId : String)
  | functionCallArgumentsDone (callId : String) (output : String)
  | other
  deriving Repr, DecidableEq

/-- `handleEvent` with the stream handler's callbacks inlined:
`speech_started` sets the state and then runs `onSpeechStarted`
(clear the Twilio buffer, `cancelResponse`); `audio.delta` sets
`aiSpeaking` and the item id and forwards the transcoded frame;
`audio.done` returns to `idle` and clears the item id;
`function_call_arguments.done` runs the tool and replies with a
`function_call_output` item followed by `response.create`. -/
def handleEvent (s : BridgeState) (e : OpenAIEvent) : BridgeState :=
  match e with
  | OpenAIEvent.speechStarted _ _ =>
      let s := { s with state := ConversationState.userSpeaking }
      let s := { s with sentToTwilio := s.sentToTwilio ++ [TwilioOut.clear] }
      cancelResponse s
  | OpenAIEvent.speechStopped _ _ =>
      { s with state := ConversationState.idle }
  | OpenAIEvent.audioDelta itemId delta =>
      let s := { s with state := ConversationState.aiSpeaking,
                        currentResponseItemId := some itemId }
      { s with sentToTwilio := s.sentToTwilio ++ [TwilioOut.media (openaiToTwilio delta)] }
  | OpenAIEvent.audioDone _ =>
      { s with state := ConversationState.idle, currentResponseItemId := none }
  | OpenAIEvent.functionCallArgumentsDone callId output =>
      let s := { s with state := ConversationState.processingTool }
      let s := { s with sentToOpenAI :=
          s.sentToOpenAI ++ [LLMOut.functionCallOutput callId output, LLMOut.responseCreate] }
      { s with state := ConversationState.idle }
  | OpenAIEvent.other => s

def runEvents (s : BridgeState) (es : List OpenAIEvent) : BridgeState :=
  es.foldl handleEvent s

/-! ## LLM reconnect policy (Twilio stream handler, `attemptReconnect`)

The handler's `reconnectAttempts` counter is incremented at the top of
`attemptReconnect` and again in the replacement client's `onClose`
callback; the only reset in the source is the *client's own* unrelated
field on WebSocket `open`.  Each reconnect waits
`1000 * reconnectAttempts` ms.  An attempt is driven by one of three
outcomes of `connect()`. -/

inductive AttemptOutcome where
  /-- `connect()` rejects (handshake timeout); the catch recurses. -/
  | connectFails
  /-- the socket opens and later closes; the inline `onClose` runs. -/
  | opensThenCloses
  /-- the socket opens and the session proceeds (`session.created`
  received); nothing further happens to the counter. -/
  | opensAndStays
  deriving Repr, DecidableEq

structure ReconnectState where
  reconnectAttempts : Nat
  delays : List Nat
  cleanupReason : Option String
  deriving Repr, DecidableEq

def initialReconnectState : ReconnectState :=
  { reconnectAttempts := 0, delays := [], cleanupReason := none }

/-- `cleanup("openai_reconnect_exhausted")`. -/
def reconnectCleanup (s : ReconnectState) : ReconnectState :=
  { s with cleanupReason := some "openai_reconnect_exhausted" }

/-- The top of `attemptReconnect` past the ceiling guard: increment the
counter, then wait `1000 * reconnectAttempts` ms. -/
def reconnectBump (s : ReconnectState) : ReconnectState :=
  let s := { s with reconnectAttempts := s.reconnectAttempts + 1 }
  { s with delays := s.delays ++ [1000 * s.reconnectAttempts] }

/-- `attemptReconnect`, driven by the outcome of each attempted
connection (`MAX_RECONNECT = 3`): ceiling guard, counter increment and
delay, then connect; a rejected `connect()` recurses from the catch; a
socket that opens and later closes runs the inline `onClose`, which
increments the counter again and either recurses or cleans up. -/
def attemptReconnect (s : ReconnectState) : List AttemptOutcome → ReconnectState
  | [] =>
    if s.reconnectAttempts ≥ 3 then reconnectCleanup s else reconnectBump s
  | o :: rest =>
    if s.reconnectAttempts ≥ 3 then reconnectCleanup s
    else
      let s := reconnectBump s
      match o with
      | AttemptOutcome.connectFails => attemptReconnect s rest
      | AttemptOutcome.opensAndStays => s
      | AttemptOutcome.opensThenCloses =>
          let s := { s with reconnectAttempts := s.reconnectAttempts + 1 }
          if s.reconnectAttempts < 3 then attemptReconnect s rest
          else reconnectCleanup s

/-! ## Supporting lemmas -/

theorem countConfirmed_append (db : List AppointmentRow) (row : AppointmentRow)
    (date time : String) :
    countConfirmed (db ++ [row]) date time =
      countConfirmed db date time +
        (if (row.date = date && row.time = time && row.status = "confirmed") then 1 else 0) := by
  unfold countConfirmed
  rw [List.filter_append, List.length_append]
  congr 1
  by_cases hp : (row.date = date && row.time = time && row.status = "confirmed") = true
  · simp [List.filter_cons, hp]
  · simp only [Bool.not_eq_true] at hp
    simp [List.filter_cons, hp]

theorem countConfirmed_eq_zero_of_not_booked (db : List AppointmentRow)
    (date time : String) (h : isSlotBooked db date time = false) :
    countConfirmed db date time = 0 := by
  unfold countConfirmed
  unfold isSlotBooked at h
  rw [List.any_eq_false] at h
  rw [List.length_eq_zero, List.filter_eq_nil_iff]
  intro a ha
  exact fun hc => h a ha (by simpa using hc)

/-- One sequential `create_appointment` call preserves the at-most-one
invariant. -/
theorem runCreate_preserves_unique (db : List AppointmentRow) (r : BookingRequest)
    (h : ∀ d t, countConfirmed db d t ≤ 1) (d t : String) :
    countConfirmed (runCreate db r).2 d t ≤ 1 := by
  unfold runCreate createAppointment insertAppointment
  by_cases hb : isSlotBooked db r.date r.time
  · simp [hb, h d t]
  · simp only [Bool.not_eq_true] at hb
    by_cases hc : (db.any fun x => x.confirmationNumber = r.confirmationNumber) = true
    · simp [hb, hc, h d t]
    · simp only [Bool.not_eq_true] at hc
      simp only [hb, hc, Bool.false_eq_true, if_false]
      rw [countConfirmed_append]
      by_cases h1 : r.date = d
      · by_cases h2 : r.time = t
        · have h0 : countConfirmed db d t = 0 := by
            rw [← h1, ← h2]
            exact countConfirmed_eq_zero_of_not_booked db r.date r.time hb
          simp [h0]
          split <;> omega
        · simp [h2, h d t]
      · simp [h1, h d t]

theorem runSequential_preserves_unique (reqs : List BookingRequest)
    (db : List AppointmentRow) (h : ∀ d t, countConfirmed db d t ≤ 1) (d t : String) :
    countConfirmed (runSequential db reqs) d t ≤ 1 := by
  induction reqs generalizing db with
  | nil => exact h d t
  | cons r rest ih =>
    have hstep : runSequential db (r :: rest) = runSequential (runCreate db r).2 rest := rfl
    rw [hstep]
    exact ih (runCreate db r).2 (fun d t => runCreate_preserves_unique db r h d t)

/-- One bridge step preserves: the item id is set whenever the state is
`aiSpeaking`. -/
theorem handleEvent_preserves_itemId (s : BridgeState) (e : OpenAIEvent)
    (h : s.state = ConversationState.aiSpeaking → s.currentResponseItemId ≠ none) :
    (handleEvent s e).state = ConversationState.aiSpeaking →
      (handleEvent s e).currentResponseItemId ≠ none := by
  cases e with
  | speechStarted a i => simp [handleEvent, cancelResponse]
  | speechStopped a i => simp [handleEvent]
  | audioDelta i d => simp [handleEvent]
  | audioDone i => simp [handleEvent]
  | functionCallArgumentsDone c o => simp [handleEvent]
  | other => exact h

theorem runEvents_itemId_invariant (es : List OpenAIEvent) (s : BridgeState)
    (h : s.state = ConversationState.aiSpeaking → s.currentResponseItemId ≠ none) :
    (runEvents s es).state = ConversationState.aiSpeaking →
      (runEvents s es).currentResponseItemId ≠ none := by
  induction es generalizing s with
  | nil => exact h
  | cons e rest ih => exact ih (handleEvent s e) (handleEvent_preserves_itemId s e h)

/-- The day's slot set as the spec describes it: labels at `:00` and
`:30` from `"9:00 AM"` through `"4:30 PM"` inclusive, without
`"12:00 PM"` and `"12:30 PM"`, in natural time order (for comparison
with `generateAllSlots`). -/
def fullDaySlotLabelsSpec : List String :=
  ["9:00 AM", "9:30 AM", "10:00 AM", "10:30 AM", "11:00 AM", "11:30 AM",
   "1:00 PM", "1:30 PM", "2:00 PM", "2:30 PM", "3:00 PM", "3:30 PM",
   "4:00 PM", "4:30 PM"]

theorem generateAllSlots_eq_spec : generateAllSlots = fullDaySlotLabelsSpec := by decide

/-- A store holding one confirmed appointment on 2026-02-10 at 10:30 AM. -/
def slotTakenDb : List AppointmentRow :=
  [{ customerName := "Alice", phoneNumber := "+15550100", date := "2026-02-10",
     time := "10:30 AM", confirmationNumber := "APT-12345", callSid := "C1",
     status := "confirmed" }]

/-- Two racing bookings of the same slot against an empty store. -/
def racedExample : CreateResult × CreateResult × List AppointmentRow :=
  runRacedPair []
    { customerName := "Alice", date := "2026-02-10", time := "10:30 AM",
      callSid := "C1", phoneNumber := "+15550100", confirmationNumber := "APT-11111" }
    { customerName := "Bob", date := "2026-02-10", time := "10:30 AM",
      callSid := "C2", phoneNumber := "+15550111", confirmationNumber := "APT-22222" }

theorem executeToolCall_of_run_error (name : String) (args : ToolArgs)
    (db : List AppointmentRow) (callSid phoneNumber confirmationNumber : String)
    (cache : Except String Unit) (e : String)
    (h : runToolCall name args db callSid phoneNumber confirmationNumber cache =
      Except.error e) :
    executeToolCall name args db callSid phoneNumber confirmationNumber cache =
      toolTroubleJson := by
  simp [executeToolCall, h]

/-! ## Claim theorems -/

/-- Claim C1, counterexample: with an empty store, two concurrent
`create_appointment` calls for the same (date, time) whose availability
pre-checks both run before either insert both succeed — neither insert
violates any declared constraint, because the schema has no unique
constraint on (appointment_date, appointment_time) — leaving two
confirmed rows for that slot. -/
theorem raced_create_duplicates_confirmed_rows :
    racedExample.1.success = true ∧ racedExample.2.1.success = true ∧
    countConfirmed racedExample.2.2 "2026-02-10" "10:30 AM" = 2 := by
  decide

/-- Claim C1, amended: after any sequence of sequential (non-overlapping)
`create_appointment` calls starting from an empty store, at most one
confirmed row exists per (date, time); the application pre-check — not a
database unique constraint, which the schema lacks — is what enforces
this, and it does not survive concurrent interleavings. -/
theorem sequential_bookings_at_most_one_confirmed
    (reqs : List BookingRequest) (d t : String) :
    countConfirmed (runSequential [] reqs) d t ≤ 1 :=
  runSequential_preserves_unique reqs []
    (fun _ _ => by simp [countConfirmed]) d t

/-- Claim C2: when `input_audio_buffer.speech_started` arrives while the
state is ai-speaking, the code sends the `clear` frame to telephony but
never sends `response.cancel` or `conversation.item.truncate`:
`handleEvent` overwrites the state with user-speaking before the
callback runs, so `cancelResponse`'s ai-speaking guard always fails. -/
theorem bargeIn_sends_clear_but_no_cancel_or_truncate :
    (runEvents initialBridgeState
        [OpenAIEvent.audioDelta "I1" "", OpenAIEvent.speechStarted 640 "U1"]).state =
      ConversationState.userSpeaking ∧
    (runEvents initialBridgeState
        [OpenAIEvent.audioDelta "I1" "", OpenAIEvent.speechStarted 640 "U1"]).sentToTwilio =
      [TwilioOut.media "", TwilioOut.clear] ∧
    (runEvents initialBridgeState
        [OpenAIEvent.audioDelta "I1" "", OpenAIEvent.speechStarted 640 "U1"]).sentToOpenAI = [] := by
  decide

/-- Claim C3: when each replacement socket opens and then closes, the
counter is incremented twice per cycle, so only two reconnects happen,
waiting 1 s and 3 s, before the call is ended; after a successful
reconnect (`session.created` received) the counter keeps its value — it
is never reset; only when every `connect()` fails outright does the
claimed 1 s / 2 s / 3 s three-attempt schedule occur. -/
theorem reconnect_trace_behavior :
    attemptReconnect initialReconnectState
        [AttemptOutcome.opensThenCloses, AttemptOutcome.opensThenCloses] =
      { reconnectAttempts := 4, delays := [1000, 3000],
        cleanupReason := some "openai_reconnect_exhausted" } ∧
    (attemptReconnect initialReconnectState
        [AttemptOutcome.connectFails, AttemptOutcome.opensAndStays]).reconnectAttempts = 2 ∧
    attemptReconnect initialReconnectState
        [AttemptOutcome.connectFails, AttemptOutcome.connectFails, AttemptOutcome.connectFails] =
      { reconnectAttempts := 3, delays := [1000, 2000, 3000],
        cleanupReason := some "openai_reconnect_exhausted" } := by
  decide

/-- Claim C4, counterexample: μ-law byte 1 decodes to −45436, clamped to
−32768, which re-encodes to byte 0, so the round trip is not the
identity. -/
theorem mulaw_roundTrip_fails_byte_one :
    pcm16ToPcmu (pcmuToPcm16 [1]) = [0] ∧ pcm16ToPcmu (pcmuToPcm16 [1]) ≠ [1] := by
  decide

/-- Claim C4, amended: encode∘decode restores the byte only on the 17
bytes listed (the zero-mantissa codes and the two clamped extremes); for
the remaining 239 bytes the decode table's magnitude reconstruction
(`mantissa << 4` with a single bias subtraction, where G.711 uses
`mantissa << 3`) is not the inverse of the encoder. -/
theorem mulaw_roundTrip_exact_byte_set :
    (List.range 256).filter (fun b => pcm16ToPcmu (pcmuToPcm16 [b]) == [b]) =
      [0, 15, 31, 47, 63, 79, 95, 111, 128, 143, 159, 175, 191, 207, 223, 239, 255] := by
  decide

/-- Claim C5: for a parseable date, `list_available_slots` returns the
empty list on Saturdays and Sundays, and otherwise the day's full slot
set — `"9:00 AM"` through `"4:30 PM"` at `:00`/`:30` without the 12:00
and 12:30 labels — minus the labels stored with a confirmed appointment
on that date, in natural time order. -/
theorem listAvailableSlots_weekend_empty_else_full_minus_booked
    (db : List AppointmentRow) (date : String) (y m d : Nat)
    (h : parseDate date = some (y, m, d)) :
    (dayOfWeek y m d = 0 ∨ dayOfWeek y m d = 6 → listAvailableSlots db date = []) ∧
    (dayOfWeek y m d ≠ 0 ∧ dayOfWeek y m d ≠ 6 →
      listAvailableSlots db date =
        fullDaySlotLabelsSpec.filter (fun s => !(getBookedSlots db date).contains s)) := by
  constructor
  · intro hw
    unfold listAvailableSlots
    rw [h]
    have hcond : (some (y, m, d)).map (fun p => dayOfWeek p.1 p.2.1 p.2.2) = some 0 ∨
        (some (y, m, d)).map (fun p => dayOfWeek p.1 p.2.1 p.2.2) = some 6 := by
      rcases hw with hw | hw
      · exact Or.inl (by simp [hw])
      · exact Or.inr (by simp [hw])
    rw [if_pos hcond]
  · intro hw
    unfold listAvailableSlots
    rw [h]
    rw [if_neg, generateAllSlots_eq_spec]
    simp only [Option.map_some', not_or, Option.some.injEq]
    exact ⟨hw.1, hw.2⟩

/-- Claim C5 witness: 2026-02-14 is a Saturday and yields no slots. -/
theorem listAvailableSlots_weekend_witness :
    listAvailableSlots [] "2026-02-14" = [] :=
  (listAvailableSlots_weekend_empty_else_full_minus_booked [] "2026-02-14" 2026 2 14
      (by decide)).1 (Or.inr (by decide))

/-- Claim C6, counterexample: booking an already-confirmed slot returns
`success = false` with the descriptive message
"That time slot was just booked by someone else. Please choose another
time.", not the error code `"slot_taken"`. -/
theorem createAppointment_taken_slot_message :
    (createAppointment slotTakenDb "Bob" "2026-02-10" "10:30 AM" "C2" "+15550111"
        "APT-54321").1 =
      { success := false, confirmation_number := none,
        error := some "That time slot was just booked by someone else. Please choose another time." } ∧
    (createAppointment slotTakenDb "Bob" "2026-02-10" "10:30 AM" "C2" "+15550111"
        "APT-54321").1.error ≠ some "slot_taken" := by
  decide

/-- Claim C6, amended: when the pre-check finds a confirmed row on the
requested (date, time), `create_appointment` returns `success = false`
with the slot-taken message and leaves the store unchanged; when the
pre-check passes but the insert violates the schema's unique constraint
(on `confirmation_number` — there is none on date/time), the thrown
error is caught and the database-error message is returned, again
without raising. -/
theorem createAppointment_failure_modes (db : List AppointmentRow)
    (nm date time sid phone conf : String) :
    (isSlotBooked db date time = true →
      createAppointment db nm date time sid phone conf =
        ({ success := false, confirmation_number := none,
           error := some "That time slot was just booked by someone else. Please choose another time." },
         db)) ∧
    (isSlotBooked db date time = false →
      (db.any fun r => r.confirmationNumber = conf) = true →
      createAppointment db nm date time sid phone conf =
        ({ success := false, confirmation_number := none,
           error := some "Database error — please try again." }, db)) := by
  constructor
  · intro hb
    simp [createAppointment, hb]
  · intro hb hc
    simp [createAppointment, hb, insertAppointment, hc]

/-- Claim C6 witness: the slot-taken branch at a concrete store. -/
theorem createAppointment_failure_modes_witness :
    createAppointment slotTakenDb "Bob" "2026-02-10" "10:30 AM" "C2" "+15550111"
        "APT-54321" =
      ({ success := false, confirmation_number := none,
         error := some "That time slot was just booked by someone else. Please choose another time." },
       slotTakenDb) :=
  (createAppointment_failure_modes slotTakenDb "Bob" "2026-02-10" "10:30 AM" "C2"
      "+15550111" "APT-54321").1 (by decide)

/-- Claim C7, counterexample: after an `audio.delta` for item I1
followed by `speech_started` (barge-in), the state is user-speaking but
`currentResponseItemId` still holds I1 — the field is non-null outside
ai-speaking, because neither the `speech_started` handler nor
`cancelResponse` clears it. -/
theorem bargeIn_leaves_stale_item_id :
    (runEvents initialBridgeState
        [OpenAIEvent.audioDelta "I1" "", OpenAIEvent.speechStarted 640 "U1"]).state =
      ConversationState.userSpeaking ∧
    (runEvents initialBridgeState
        [OpenAIEvent.audioDelta "I1" "", OpenAIEvent.speechStarted 640 "U1"]).currentResponseItemId =
      some "I1" := by
  decide

/-- Claim C7, amended: in every reachable state of the per-call machine,
`currentResponseItemId` is non-null whenever the state is ai-speaking,
and the audio-done transition clears it; the barge-in transition to
user-speaking leaves the stale item id in place, so the field can be
non-null outside ai-speaking. -/
theorem item_id_set_whenever_ai_speaking (es : List OpenAIEvent) :
    ((runEvents initialBridgeState es).state = ConversationState.aiSpeaking →
      (runEvents initialBridgeState es).currentResponseItemId ≠ none) ∧
    (∀ itemId, (handleEvent (runEvents initialBridgeState es)
        (OpenAIEvent.audioDone itemId)).currentResponseItemId = none) := by
  constructor
  · exact runEvents_itemId_invariant es initialBridgeState
      (fun hcon => by simp [initialBridgeState] at hcon)
  · intro itemId
    simp [handleEvent]

/-- Claim C7 witness: after one `audio.delta`, the machine is
ai-speaking and the item id is set. -/
theorem item_id_set_whenever_ai_speaking_witness :
    (runEvents initialBridgeState [OpenAIEvent.audioDelta "I1" ""]).currentResponseItemId ≠
      none :=
  (item_id_set_whenever_ai_speaking [OpenAIEvent.audioDelta "I1" ""]).1 (by decide)

/-- Claim C8: for every Int16 sample list of length at least 1,
downsampling the upsampled signal is the identity. -/
theorem downsample_after_upsample_identity (x : List Int)
    (hlen : 1 ≤ x.length) (hx : ∀ s ∈ x, -32768 ≤ s ∧ s ≤ 32767) :
    resample24to8 (resample8to24 x) = x :=
  resample_roundTrip x hx

/-- Claim C8 witness: a concrete three-sample signal. -/
theorem downsample_after_upsample_identity_witness :
    resample24to8 (resample8to24 [5, -3, 32767]) = [5, -3, 32767] :=
  downsample_after_upsample_identity [5, -3, 32767] (by decide) (by decide)

/-- Claim C9: the transcoder operations and the two base64 pipeline
helpers are total functions (they are plain Lean functions, so they
return on every input), empty input yields empty output, and each
output's size is determined for every input. -/
theorem transcoder_total_and_empty_to_empty :
    pcmuToPcm16 [] = [] ∧ pcm16ToPcmu [] = [] ∧ resample8to24 [] = [] ∧
    resample24to8 [] = [] ∧ twilioToOpenAI "" = "" ∧ openaiToTwilio "" = "" ∧
    (∀ l : List Nat, (pcmuToPcm16 l).length = l.length) ∧
    (∀ l : List Int, (pcm16ToPcmu l).length = l.length) ∧
    (∀ l : List Int, (resample8to24 l).length = 3 * l.length) ∧
    (∀ l : List Int, (resample24to8 l).length = l.length / 3) := by
  refine ⟨rfl, rfl, rfl, rfl, rfl, rfl, ?_, ?_, resample8to24_length, resample24to8_length⟩
  · intro l
    simp [pcmuToPcm16]
  · intro l
    simp [pcm16ToPcmu]

/-- Claim C10: the dispatcher always returns a JSON value — a thrown
exception never propagates; an unrecognized function name, an
argument-parsing failure (`args = {}`), and a throwing session-cache or
store operation each produce the fixed error-discriminator object. -/
theorem executeToolCall_never_throws (name : String) (args : ToolArgs)
    (db : List AppointmentRow) (callSid phoneNumber confirmationNumber : String)
    (cache : Except String Unit) :
    ((∃ j, runToolCall name args db callSid phoneNumber confirmationNumber cache =
        Except.ok j ∧
        executeToolCall name args db callSid phoneNumber confirmationNumber cache = j) ∨
      executeToolCall name args db callSid phoneNumber confirmationNumber cache =
        toolTroubleJson) ∧
    (name ≠ "list_available_slots" → name ≠ "create_appointment" →
      executeToolCall name args db callSid phoneNumber confirmationNumber cache =
        toolTroubleJson) ∧
    (args = emptyToolArgs →
      executeToolCall name args db callSid phoneNumber confirmationNumber cache =
        toolTroubleJson) ∧
    (∀ e, cache = Except.error e →
      executeToolCall name args db callSid phoneNumber confirmationNumber cache =
        toolTroubleJson) := by
  refine ⟨?_, ?_, ?_, ?_⟩
  · cases hr : runToolCall name args db callSid phoneNumber confirmationNumber cache with
    | ok j => exact Or.inl ⟨j, rfl, by simp [executeToolCall, hr]⟩
    | error e => exact Or.inr (executeToolCall_of_run_error _ _ _ _ _ _ _ _ hr)
  · intro h1 h2
    apply executeToolCall_of_run_error (e := "Unknown function: " ++ name)
    unfold runToolCall
    split
    · exact absurd rfl h1
    · exact absurd rfl h2
    · rfl
  · intro ha
    subst ha
    have herr : ∃ e, runToolCall name emptyToolArgs db callSid phoneNumber
        confirmationNumber cache = Except.error e := by
      unfold runToolCall
      split
      · exact ⟨_, rfl⟩
      · exact ⟨_, rfl⟩
      · exact ⟨_, rfl⟩
    obtain ⟨e, he⟩ := herr
    exact executeToolCall_of_run_error _ _ _ _ _ _ _ _ he
  · intro e he
    subst he
    have herr : ∃ e2, runToolCall name args db callSid phoneNumber
        confirmationNumber (Except.error e) = Except.error e2 := by
      unfold runToolCall
      split
      · split
        · exact ⟨_, rfl⟩
        · exact ⟨_, rfl⟩
      · split
        · exact ⟨_, rfl⟩
        · exact ⟨_, rfl⟩
      · exact ⟨_, rfl⟩
    obtain ⟨e2, he2⟩ := herr
    exact executeToolCall_of_run_error _ _ _ _ _ _ _ _ he2

/-- Claim C10 witness: an unknown tool name with empty arguments and a
failing cache still yields the error object. -/
theorem executeToolCall_never_throws_witness :
    executeToolCall "bogus_tool" emptyToolArgs [] "C1" "+15550100" "APT-11111"
        (Except.ok ()) = toolTroubleJson :=
  (executeToolCall_never_throws "bogus_tool" emptyToolArgs [] "C1" "+15550100"
      "APT-11111" (Except.ok ())).2.1 (by decide) (by decide)

end VoiceAgent

